import Mathlib

/-!
Shallow embedding of the backend service in `backend/app.py` (a single-file
FastAPI relay around a local Ollama container).  Python strings are modelled
as lists of characters (`PyStr`); external effects (the container runtime,
the filesystem of uploaded blobs, the generation endpoint) are modelled as
explicit oracle state threaded through the functions.
-/

/-- Python strings are sequences of code points; we model them as `List Char`. -/
abbrev PyStr := List Char

/-- Turn a Lean string literal into its character-list model. -/
def S (s : String) : PyStr := s.data

/-- Model of Python `str.isspace`-class characters relevant to `str.strip()`
    (ASCII whitespace; the uploads in scope are ASCII). -/
def pyIsSpace (c : Char) : Bool :=
  c = ' ' || c = '\t' || c = '\n' || c = '\r' || c = '\x0b' || c = '\x0c'

/-- Model of Python `str.strip()`: drop whitespace from both ends. -/
def pyStrip (s : PyStr) : PyStr :=
  ((s.dropWhile pyIsSpace).reverse.dropWhile pyIsSpace).reverse

/-- Model of Python `str.lower()` (ASCII case folding, as in `Char.toLower`). -/
def pyLower (s : PyStr) : PyStr := s.map Char.toLower

/-- Model of Python `str.endswith(suffixStr)`. -/
def pyEndsWith (s suf : PyStr) : Bool := List.isSuffixOf suf s

/-- Model of POSIX `os.path.join(a, b)` for a relative second component. -/
def pyJoin (a b : PyStr) : PyStr := a ++ ('/' :: b)

/-- Python truthiness of an optional string (`None` and `""` are falsy). -/
def optTruthy : Option PyStr → Prop
  | none => False
  | some t => t ≠ []

instance (s : Option PyStr) : Decidable (optTruthy s) :=
  match s with
  | none => inferInstanceAs (Decidable False)
  | some t => inferInstanceAs (Decidable (t ≠ []))

/-- Truthiness of `request.manual_text and request.manual_text.strip()`
    (app.py line 132). -/
def manualTruthy : Option PyStr → Prop
  | none => False
  | some t => t ≠ [] ∧ pyStrip t ≠ []

instance (s : Option PyStr) : Decidable (manualTruthy s) :=
  match s with
  | none => inferInstanceAs (Decidable False)
  | some t => inferInstanceAs (Decidable (t ≠ [] ∧ pyStrip t ≠ []))

/-- `UPLOAD_DIR = "uploads"` (app.py line 25). -/
def UPLOAD_DIR : PyStr := S "uploads"

/-- `MODEL_NAME = "granite3.2:2b"` (app.py line 29). -/
def MODEL_NAME : PyStr := S "granite3.2:2b"

/-- One page of a parsed PDF: the result of `page.extract_text()` (which may
    return `None`) and the PNG raster of `page.to_image(resolution=300)`,
    base64-encoded as the code does. -/
structure PdfPage where
  extractText : Option PyStr
  rasterPng : PyStr
deriving DecidableEq

/-- A document as exposed by `pdfplumber.open`: its pages and the metadata
    `Title` entry (absent or `None` modelled as `none`). -/
structure PdfDoc where
  pages : List PdfPage
  metadataTitle : Option PyStr
deriving DecidableEq

/-- A stored blob in `uploads/`: its byte size, the text obtained by reading
    it with `open(..., "r", encoding="utf-8", errors="ignore")`, and the
    result of attempting to parse it with pdfplumber (`none` models a parse
    exception). -/
structure StoredFile where
  size : Nat
  textRead : PyStr
  pdfParse : Option PdfDoc
deriving DecidableEq

/-- Which extraction path produced the content (the spec's `sourceKind`). -/
inductive SourceKind where
  | Text
  | PdfTextLayer
  | PdfRasterFallback
  | PlainFile
deriving DecidableEq

/-- Error taxonomy of the chat pipeline (spec section 7); the code surfaces
    each as a distinct JSON error response. -/
inductive ChatError where
  | serviceUnavailable
  | modelNotReady
  | fileNotFound
  | fileTooLarge
  | extractionFailed
  | readFailed
  | emptyContent
  | noContentProvided
  | upstreamError
  | connectionError
deriving DecidableEq

/-- The page-by-page text-layer concatenation loop (app.py lines 148-152):
    `if text: extracted_text += text + "\n"`. -/
def pdfTextLayer (pages : List PdfPage) : PyStr :=
  pages.foldl
    (fun acc p =>
      match p.extractText with
      | none => acc
      | some t => if t = [] then acc else acc ++ t ++ S "\n")
    []

/-- The metadata-title fallback `metadata.get('Title', '') or 'Unknown'`
    (app.py line 167). -/
def pdfTitle (doc : PdfDoc) : PyStr :=
  match doc.metadataTitle with
  | none => S "Unknown"
  | some t => if t = [] then S "Unknown" else t

/-- The PDF branch of extraction (app.py lines 145-169): try the text layer;
    if it is blank, rasterize the first page (an exception when there is no
    page, caught by the surrounding handler) and synthesize the metadata
    hint. -/
def extractPdf (doc : PdfDoc) : Except ChatError (PyStr × List PyStr × SourceKind) :=
  let extracted := pdfTextLayer doc.pages
  if pyStrip extracted ≠ [] then
    .ok (extracted, [], .PdfTextLayer)
  else
    match doc.pages with
    | [] => .error .extractionFailed
    | pg :: _ =>
      .ok (S "Document metadata title: " ++ pdfTitle doc, [pg.rasterPng], .PdfRasterFallback)

/-- Extraction of a stored file at `path` (app.py lines 141-181): the 10 MiB
    guard, then suffix-based PDF dispatch, else the plain-text read. -/
def extractFile (f : StoredFile) (path : PyStr) : Except ChatError (PyStr × List PyStr × SourceKind) :=
  if 10 * 1024 * 1024 < f.size then .error .fileTooLarge
  else if pyEndsWith (pyLower path) (S ".pdf") = true then
    match f.pdfParse with
    | none => .error .extractionFailed
    | some doc => extractPdf doc
  else
    .ok (f.textRead, [], .PlainFile)

/-- The chat request body (app.py lines 107-110). -/
structure ChatRequest where
  prompt : Option PyStr
  file_id : Option PyStr
  manual_text : Option PyStr
deriving DecidableEq

/-- A parsed response from the generation endpoint: whether
    `raise_for_status()` passes (2xx) and the optional `response` field of
    the JSON payload. -/
structure GenResponse where
  status2xx : Bool
  responseField : Option PyStr
deriving DecidableEq

/-- Oracle state for one chat call: the container-running probe, the
    model-availability probe, the uploads filesystem, and what the network
    returns for the generation call (`none` models a connection failure). -/
structure Env where
  running : Bool
  modelAvailable : Bool
  fs : PyStr → Option StoredFile
  upstream : Option GenResponse

/-- Content gathering of the chat endpoint (app.py lines 128-185): the
    manual-text branch, else the file branch with lookup, size guard,
    extraction and the empty-content guard, else no content. -/
def gatherContent (env : Env) (req : ChatRequest) : Except ChatError (PyStr × List PyStr) :=
  if manualTruthy req.manual_text then
    .ok (req.manual_text.getD [], [])
  else if optTruthy req.file_id then
    let path := pyJoin UPLOAD_DIR (req.file_id.getD [])
    match env.fs path with
    | none => .error .fileNotFound
    | some f =>
      match extractFile f path with
      | .error e => .error e
      | .ok (fc, imgs, _kind) =>
        if pyStrip fc = [] ∧ imgs = [] then .error .emptyContent
        else .ok (fc, imgs)
  else
    .ok ([], [])

/-- Prompt composition (app.py lines 190-200). -/
def composePrompt (prompt fileContent : PyStr) (images : List PyStr) : PyStr :=
  if pyStrip fileContent ≠ [] then
    if pyStrip prompt ≠ [] then
      S "The user has uploaded a document. Document content:\n" ++ fileContent
        ++ S "\n\nUser message: " ++ prompt
    else
      S "The user has uploaded a document. Document content:\n" ++ fileContent
        ++ S "\n\nPlease analyze this document."
  else if images ≠ [] then
    if pyStrip prompt ≠ [] then
      S "The user has uploaded a document image. User message: " ++ prompt
    else
      S "The user has uploaded a document image. Please analyze the document content."
  else
    prompt

/-- The truncation marker appended at app.py line 205. -/
def truncMarker : PyStr := S "... [Prompt truncated]"

/-- Truncation of the composed prompt (app.py lines 202-206). -/
def truncatePrompt (p : PyStr) : PyStr :=
  if 4000 < p.length then p.take 4000 ++ truncMarker else p

/-- The chat endpoint up to (and excluding) truncation and the network call:
    readiness gates, content gathering, the no-content guard, and prompt
    composition.  Returns the pre-truncation composed prompt and the image
    list, or the error the endpoint responds with. -/
def chatCore (env : Env) (req : ChatRequest) : Except ChatError (PyStr × List PyStr) :=
  if env.running = false then .error .serviceUnavailable
  else if env.modelAvailable = false then .error .modelNotReady
  else
    let prompt := req.prompt.getD []
    match gatherContent env req with
    | .error e => .error e
    | .ok (fc, imgs) =>
      if pyStrip fc = [] ∧ imgs = [] ∧ pyStrip prompt = [] then
        .error .noContentProvided
      else
        .ok (composePrompt prompt fc imgs, imgs)

/-- The JSON payload posted to the generation endpoint (app.py lines 208-213). -/
structure GenPayload where
  model : PyStr
  prompt : PyStr
  images : List PyStr
  stream : Bool
deriving DecidableEq

/-- Outcome of a chat call as seen by the client. -/
inductive ChatResult where
  | success (text : PyStr)
  | failure (e : ChatError)
deriving DecidableEq

/-- Handling of the generation call (app.py lines 214-226): connection
    failure, non-2xx, or `data.get("response", "")`. -/
def callGeneration (up : Option GenResponse) : ChatResult :=
  match up with
  | none => .failure .connectionError
  | some r =>
    if r.status2xx = true then .success (r.responseField.getD [])
    else .failure .upstreamError

/-- The whole chat endpoint.  The second component is the payload actually
    posted to the generation endpoint, `none` when no network call is made. -/
def chat (env : Env) (req : ChatRequest) : ChatResult × Option GenPayload :=
  match chatCore env req with
  | .error e => (.failure e, none)
  | .ok (t, imgs) =>
    (callGeneration env.upstream, some ⟨MODEL_NAME, truncatePrompt t, imgs, false⟩)

/-- Modelled from the spec and `uuid.uuid4()`: a character of the canonical
    lowercase hyphenated UUID rendering (hex digit or dash). -/
def isUuidChar (c : Char) : Bool :=
  (48 ≤ c.toNat && c.toNat ≤ 57) || (97 ≤ c.toNat && c.toNat ≤ 102) || c.toNat = 45

/-- Modelled from `str(uuid.uuid4())`: a 36-character string of hex digits
    and dashes. -/
def isUuidStr (s : PyStr) : Bool := s.length == 36 && s.all isUuidChar

/-- The upload endpoint (app.py lines 112-118) given the freshly generated
    identifier: the path written to and the returned `file_id`. -/
def upload_file (freshId : PyStr) : PyStr × PyStr :=
  (pyJoin UPLOAD_DIR freshId, freshId)

/-- Oracle state for the container-management helpers: whether a container
    named `ollama_server` is currently running, whether a fresh `docker run`
    attempt would leave one running (the code never checks this), and the
    stopped/created/dead containers matching the name. -/
structure DockerWorld where
  running : Bool
  runSucceeds : Bool
  staleIds : List PyStr

/-- `is_ollama_running` (app.py lines 33-40). -/
def is_ollama_running (w : DockerWorld) : Bool := w.running

/-- `remove_stopped_ollama_container` (app.py lines 42-53): best-effort
    removal of exited/created/dead containers; does not affect a running one. -/
def remove_stopped_ollama_container (w : DockerWorld) : DockerWorld :=
  ⟨w.running, w.runSucceeds, []⟩

/-- `start_ollama_container` (app.py lines 55-67): when not running, clean up
    stale containers and issue `docker run` (whose outcome is never checked),
    returning `True`; otherwise return `False`. -/
def start_ollama_container (w : DockerWorld) : Bool × DockerWorld :=
  if is_ollama_running w = false then
    let w1 := remove_stopped_ollama_container w
    (true, ⟨w1.runSucceeds, w1.runSucceeds, w1.staleIds⟩)
  else
    (false, w)

/-- The `/ollama/start` endpoint (app.py lines 95-98): responds with
    `started or is_ollama_running()`. -/
def ollama_start (w : DockerWorld) : Bool × DockerWorld :=
  let r := start_ollama_container w
  (r.1 || is_ollama_running r.2, r.2)

instance {ε α : Type} [DecidableEq ε] [DecidableEq α] : DecidableEq (Except ε α) := fun x y =>
  match x, y with
  | .error a, .error b =>
    if h : a = b then isTrue (by rw [h]) else isFalse (by intro he; cases he; exact h rfl)
  | .error _, .ok _ => isFalse (by intro h; cases h)
  | .ok _, .error _ => isFalse (by intro h; cases h)
  | .ok a, .ok b =>
    if h : a = b then isTrue (by rw [h]) else isFalse (by intro he; cases he; exact h rfl)

/-- Dropping while a predicate that fails on every element leaves the list unchanged. -/
theorem dropWhile_eq_self_of_false {p : Char → Bool} {l : PyStr} (h : ∀ c ∈ l, p c = false) :
    List.dropWhile p l = l := by
  cases l with
  | nil => rfl
  | cons a t => simp [List.dropWhile_cons, h a (List.mem_cons_self a t)]

/-- `pyStrip` is the identity on strings without whitespace characters. -/
theorem pyStrip_all_nonspace {l : PyStr} (h : ∀ c ∈ l, pyIsSpace c = false) : pyStrip l = l := by
  unfold pyStrip
  rw [dropWhile_eq_self_of_false h,
    dropWhile_eq_self_of_false (fun c hc => h c (List.mem_reverse.mp hc)),
    List.reverse_reverse]

/-- Stripping the empty string gives the empty string. -/
@[simp] theorem pyStrip_nil : pyStrip [] = [] := rfl

/-- C7: on every chat call, a false service-running probe yields the
    service-unavailable error with no generation network call (payload is
    `none`) regardless of model availability; with the service running, a
    false model-availability probe yields the model-not-ready error, again
    with no network call.  The service check is evaluated first. -/
theorem C7_readiness_gates (env : Env) (req : ChatRequest) :
    (env.running = false → chat env req = (.failure .serviceUnavailable, none)) ∧
    (env.running = true → env.modelAvailable = false →
      chat env req = (.failure .modelNotReady, none)) := by
  constructor
  · intro h
    simp [chat, chatCore, h]
  · intro h1 h2
    simp [chat, chatCore, h1, h2]

/-- Witness for C7 at a concrete environment with the service down. -/
theorem C7_readiness_gates_witness :
    chat ⟨false, true, fun _ => none, none⟩ ⟨none, none, none⟩ =
      (.failure .serviceUnavailable, none) :=
  (C7_readiness_gates ⟨false, true, fun _ => none, none⟩ ⟨none, none, none⟩).1 rfl

/-- C8: a chat request with a blank (or absent) prompt, a falsy file id and
    falsy manual text returns the no-content-provided error (given the
    readiness gates pass). -/
theorem C8_no_content (env : Env) (req : ChatRequest)
    (hr : env.running = true) (hm : env.modelAvailable = true)
    (hp : pyStrip (req.prompt.getD []) = [])
    (hf : ¬ optTruthy req.file_id)
    (hmt : ¬ manualTruthy req.manual_text) :
    chat env req = (.failure .noContentProvided, none) := by
  simp [chat, chatCore, gatherContent, hr, hm, hp, hf, hmt]

/-- Witness for C8 at a concrete fully-empty request. -/
theorem C8_no_content_witness :
    chat ⟨true, true, fun _ => none, some ⟨true, some (S "ok")⟩⟩ ⟨none, none, none⟩ =
      (.failure .noContentProvided, none) :=
  C8_no_content ⟨true, true, fun _ => none, some ⟨true, some (S "ok")⟩⟩ ⟨none, none, none⟩
    rfl rfl rfl (by decide) (by decide)

/-- C10: when the pipeline reaches the generation call and the upstream
    response is 2xx, the chat endpoint returns the `response` field of the
    payload, and an absent field yields the empty string rather than an
    error. -/
theorem C10_success_field (env : Env) (req : ChatRequest) (t : PyStr)
    (imgs : List PyStr) (r : GenResponse)
    (hcore : chatCore env req = .ok (t, imgs))
    (hup : env.upstream = some r) (h2 : r.status2xx = true) :
    (chat env req).1 = .success (r.responseField.getD []) ∧
    (r.responseField = none → (chat env req).1 = .success []) := by
  have hch : chat env req =
      (callGeneration env.upstream, some ⟨MODEL_NAME, truncatePrompt t, imgs, false⟩) := by
    simp [chat, hcore]
  rw [hch]
  constructor
  · simp [callGeneration, hup, h2]
  · intro hnone
    simp [callGeneration, hup, h2, hnone]

/-- Witness for C10 at a concrete 2xx response with the `response` field absent. -/
theorem C10_success_field_witness :
    (chat ⟨true, true, fun _ => none, some ⟨true, none⟩⟩ ⟨none, none, some (S "hi")⟩).1 =
      .success [] :=
  (C10_success_field ⟨true, true, fun _ => none, some ⟨true, none⟩⟩ ⟨none, none, some (S "hi")⟩
    (composePrompt [] (S "hi") []) [] ⟨true, none⟩ (by decide) rfl rfl).2 rfl

/-- C4 counterexample: starting from a state where the container is not
    running and the (unchecked) `docker run` attempt fails to leave it
    running, `/ollama/start` responds `started = true` while the service is
    not running after the call — so `started` is not equivalent to the
    post-call running state. -/
theorem C4_counterexample :
    (ollama_start ⟨false, false, []⟩).1 = true ∧
    (ollama_start ⟨false, false, []⟩).2.running = false := by
  decide

/-- C4 amended: `/ollama/start` responds `started = true` exactly when the
    service is running after the call or the container was not running
    before the call (a fresh start was attempted, whose outcome the code
    never checks).  In particular `started = true` whenever the service is
    running after the call. -/
theorem C4_amended_started_iff (w : DockerWorld) :
    (ollama_start w).1 = ((ollama_start w).2.running || !w.running) := by
  rcases w with ⟨r, s, ids⟩
  cases r <;> cases s <;> rfl

/-- C1: for a stored file whose path ends in `.pdf` case-insensitively,
    whose size is under the 10 MiB cap, that parses as a PDF, and whose
    concatenated text layer is non-blank, extraction takes the text-layer
    path: it returns that non-empty text, no image, and the
    `PdfTextLayer` source kind. -/
theorem C1_pdf_text_layer (path : PyStr) (f : StoredFile) (doc : PdfDoc)
    (hpdf : pyEndsWith (pyLower path) (S ".pdf") = true)
    (hsz : f.size < 10 * 1024 * 1024)
    (hparse : f.pdfParse = some doc)
    (htext : pyStrip (pdfTextLayer doc.pages) ≠ []) :
    extractFile f path = .ok (pdfTextLayer doc.pages, [], .PdfTextLayer) ∧
    pdfTextLayer doc.pages ≠ [] := by
  constructor
  · have hno : ¬ (10 * 1024 * 1024 < f.size) := by omega
    simp [extractFile, hno, hpdf, hparse, extractPdf, htext]
  · intro h
    apply htext
    rw [h]
    rfl

/-- Witness for C1 at a concrete one-page PDF with text layer `"hi"`. -/
theorem C1_pdf_text_layer_witness :
    extractFile ⟨5, S "", some ⟨[⟨some (S "hi"), S "IMG"⟩], none⟩⟩ (S "a.pdf") =
      .ok (pdfTextLayer [⟨some (S "hi"), S "IMG"⟩], [], .PdfTextLayer) :=
  (C1_pdf_text_layer (S "a.pdf") ⟨5, S "", some ⟨[⟨some (S "hi"), S "IMG"⟩], none⟩⟩
    ⟨[⟨some (S "hi"), S "IMG"⟩], none⟩ (by decide) (by decide) rfl (by decide)).1

/-- C9: for a PDF under the size cap whose concatenated text layer is blank
    and which has a first page, extraction returns exactly the one rasterized
    first page as image, the non-empty metadata hint
    `"Document metadata title: {title-or-Unknown}"` as text, and the
    `PdfRasterFallback` source kind. -/
theorem C9_raster_fallback (path : PyStr) (f : StoredFile) (doc : PdfDoc)
    (pg : PdfPage) (rest : List PdfPage)
    (hpdf : pyEndsWith (pyLower path) (S ".pdf") = true)
    (hsz : f.size < 10 * 1024 * 1024)
    (hparse : f.pdfParse = some doc)
    (hempty : pyStrip (pdfTextLayer doc.pages) = [])
    (hpages : doc.pages = pg :: rest) :
    extractFile f path =
      .ok (S "Document metadata title: " ++ pdfTitle doc, [pg.rasterPng], .PdfRasterFallback) ∧
    S "Document metadata title: " ++ pdfTitle doc ≠ [] := by
  constructor
  · have hno : ¬ (10 * 1024 * 1024 < f.size) := by omega
    have hempty2 : pyStrip (pdfTextLayer (pg :: rest)) = [] := by
      rw [← hpages]
      exact hempty
    simp [extractFile, hno, hpdf, hparse, extractPdf, hpages, hempty2]
  · have hcons : S "Document metadata title: " ++ pdfTitle doc =
        'D' :: (S "ocument metadata title: " ++ pdfTitle doc) := rfl
    rw [hcons]
    exact List.cons_ne_nil _ _

/-- Witness for C9 at a concrete one-page PDF with no text layer and
    metadata title `"T"`. -/
theorem C9_raster_fallback_witness :
    extractFile ⟨6, S "", some ⟨[⟨none, S "IMG"⟩], some (S "T")⟩⟩ (S "b.PDF") =
      .ok (S "Document metadata title: " ++ pdfTitle ⟨[⟨none, S "IMG"⟩], some (S "T")⟩,
        [PdfPage.rasterPng ⟨none, S "IMG"⟩], .PdfRasterFallback) :=
  (C9_raster_fallback (S "b.PDF") ⟨6, S "", some ⟨[⟨none, S "IMG"⟩], some (S "T")⟩⟩
    ⟨[⟨none, S "IMG"⟩], some (S "T")⟩ ⟨none, S "IMG"⟩ []
    (by decide) (by decide) rfl (by decide) rfl).1

/-- Uploads filesystem for the C5 counterexample: one stored file of size
    exactly 10 MiB under id `"u"`. -/
def fsAtCap : PyStr → Option StoredFile :=
  fun p => if p = pyJoin UPLOAD_DIR (S "u") then some ⟨10 * 1024 * 1024, S "x", none⟩ else none

/-- Environment and request for the C5 counterexample. -/
def envAtCap : Env := ⟨true, true, fsAtCap, some ⟨true, some (S "ok")⟩⟩

/-- Chat request referencing the at-cap file. -/
def reqAtCap : ChatRequest := ⟨none, some (S "u"), none⟩

/-- C5 counterexample: a chat request referencing a stored file whose size is
    exactly 10 MiB (at the cap) is NOT rejected: the guard uses a strict
    comparison, so the pipeline extracts the file and composes a prompt
    instead of failing with the file-too-large error. -/
theorem C5_counterexample :
    chatCore envAtCap reqAtCap ≠ .error .fileTooLarge ∧
    chatCore envAtCap reqAtCap =
      .ok (S "The user has uploaded a document. Document content:\nx\n\nPlease analyze this document.", []) := by
  decide

/-- C5 amended: for a chat request referencing a stored file (readiness
    gates passing, no manual text, a truthy file id resolving to the file),
    a size strictly above 10 MiB fails with the file-too-large error — and
    does so whatever the file's content, i.e. before any parsing — while a
    size at or under 10 MiB is never rejected by this guard. -/
theorem C5_amended_size_guard (env : Env) (req : ChatRequest) (id : PyStr) (f : StoredFile)
    (hr : env.running = true) (hm : env.modelAvailable = true)
    (hmt : ¬ manualTruthy req.manual_text)
    (hfid : req.file_id = some id) (hne : id ≠ [])
    (hfs : env.fs (pyJoin UPLOAD_DIR id) = some f) :
    (10 * 1024 * 1024 < f.size →
      chatCore env req = .error .fileTooLarge ∧
      ∀ tr pp, extractFile ⟨f.size, tr, pp⟩ (pyJoin UPLOAD_DIR id) = .error .fileTooLarge) ∧
    (f.size ≤ 10 * 1024 * 1024 → chatCore env req ≠ .error .fileTooLarge) := by
  have hft : optTruthy req.file_id := by rw [hfid]; exact hne
  have hidT : optTruthy (some id) := hne
  constructor
  · intro hbig
    constructor
    · simp [chatCore, hr, hm, gatherContent, hmt, hfid, hidT, hfs, extractFile, hbig]
    · intro tr pp
      simp [extractFile, hbig]
  · intro hsz hcontra
    have hnotbig : ¬ (10 * 1024 * 1024 < f.size) := by omega
    have hpdfErr : ∀ (doc : PdfDoc) (e : ChatError),
        extractPdf doc = .error e → e = .extractionFailed := by
      intro doc e he
      simp only [extractPdf] at he
      split at he
      · simp at he
      · split at he
        · cases he
          rfl
        · simp at he
    have hnotft : ∀ e, extractFile f (pyJoin UPLOAD_DIR id) = .error e → e ≠ .fileTooLarge := by
      intro e he
      simp only [extractFile] at he
      rw [if_neg hnotbig] at he
      split at he
      · split at he
        · cases he
          intro hx
          cases hx
        · have := hpdfErr _ _ he
          subst this
          intro hx
          cases hx
      · simp at he
    rcases hex : extractFile f (pyJoin UPLOAD_DIR id) with e | ⟨fc, imgs, k⟩
    · have hc : chatCore env req = .error e := by
        simp [chatCore, hr, hm, gatherContent, hmt, hfid, hidT, hfs, hex]
      rw [hc] at hcontra
      simp only [Except.error.injEq] at hcontra
      exact hnotft e hex hcontra
    · by_cases h1 : pyStrip fc = [] ∧ imgs = []
      · have hc : chatCore env req = .error .emptyContent := by
          simp [chatCore, hr, hm, gatherContent, hmt, hfid, hidT, hfs, hex, h1]
        rw [hc] at hcontra
        exact absurd hcontra (by decide)
      · by_cases h2 : pyStrip fc = [] ∧ imgs = [] ∧ pyStrip (req.prompt.getD []) = []
        · exact h1 ⟨h2.1, h2.2.1⟩
        · have hc : chatCore env req =
              .ok (composePrompt (req.prompt.getD []) fc imgs, imgs) := by
            simp [chatCore, hr, hm, gatherContent, hmt, hfid, hidT, hfs, hex, h1, h2]
          rw [hc] at hcontra
          exact Except.noConfusion hcontra

/-- Witness for C5 (amended) at a concrete file one byte over the cap. -/
theorem C5_amended_size_guard_witness :
    chatCore ⟨true, true, fun p => if p = pyJoin UPLOAD_DIR (S "w")
        then some ⟨10 * 1024 * 1024 + 1, S "x", none⟩ else none, none⟩
      ⟨none, some (S "w"), none⟩ = .error .fileTooLarge :=
  ((C5_amended_size_guard
    ⟨true, true, fun p => if p = pyJoin UPLOAD_DIR (S "w")
        then some ⟨10 * 1024 * 1024 + 1, S "x", none⟩ else none, none⟩
    ⟨none, some (S "w"), none⟩ (S "w") ⟨10 * 1024 * 1024 + 1, S "x", none⟩
    rfl rfl (by decide) rfl (by decide) (by decide)).1 (by decide)).1

/-- C6: when the request carries manual text that is non-blank after
    stripping (and the readiness gates pass), the pipeline uses the manual
    text verbatim as the document content — the composed template contains it
    as a contiguous segment — and the outcome is independent of the uploads
    filesystem and of any supplied file id: no file lookup, size check or
    extraction takes place. -/
theorem C6_manual_precedence (env : Env) (req : ChatRequest) (t : PyStr)
    (hr : env.running = true) (hm : env.modelAvailable = true)
    (ht : req.manual_text = some t) (hs : pyStrip t ≠ []) :
    chatCore env req = .ok (composePrompt (req.prompt.getD []) t [], []) ∧
    (∃ u v, u ++ t ++ v = composePrompt (req.prompt.getD []) t []) ∧
    (∀ g fid, chatCore ⟨env.running, env.modelAvailable, g, env.upstream⟩
        ⟨req.prompt, fid, req.manual_text⟩ = chatCore env req) := by
  have htne : t ≠ [] := by
    intro h0
    apply hs
    rw [h0]
    rfl
  have hmt : manualTruthy (some t) := ⟨htne, hs⟩
  have hmain : ∀ (g : PyStr → Option StoredFile) (fid : Option PyStr) (up : Option GenResponse),
      chatCore ⟨env.running, env.modelAvailable, g, up⟩ ⟨req.prompt, fid, req.manual_text⟩ =
        .ok (composePrompt (req.prompt.getD []) t [], []) := by
    intro g fid up
    simp [chatCore, hr, hm, gatherContent, ht, hmt, hs]
  have henv : chatCore env req = .ok (composePrompt (req.prompt.getD []) t [], []) := by
    have h1 := hmain env.fs req.file_id env.upstream
    have henv2 : (⟨env.running, env.modelAvailable, env.fs, env.upstream⟩ : Env) = env := rfl
    have hreq2 : (⟨req.prompt, req.file_id, req.manual_text⟩ : ChatRequest) = req := rfl
    rw [henv2, hreq2] at h1
    exact h1
  refine ⟨henv, ?_, ?_⟩
  · unfold composePrompt
    rw [if_pos hs]
    by_cases hp : pyStrip (req.prompt.getD []) ≠ []
    · rw [if_pos hp]
      exact ⟨S "The user has uploaded a document. Document content:\n",
        S "\n\nUser message: " ++ req.prompt.getD [], by simp [List.append_assoc]⟩
    · rw [if_neg hp]
      exact ⟨S "The user has uploaded a document. Document content:\n",
        S "\n\nPlease analyze this document.", by simp [List.append_assoc]⟩
  · intro g fid
    rw [hmain g fid env.upstream, henv]

/-- Witness for C6: manual text `"abc"` with prompt `"q"`, a file id that
    resolves to a stored file, and a filesystem that would serve it — the
    manual text still wins. -/
theorem C6_manual_precedence_witness :
    chatCore ⟨true, true, fun _ => some ⟨3, S "ignored", none⟩, none⟩
        ⟨some (S "q"), some (S "zzz"), some (S "abc")⟩ =
      .ok (composePrompt (S "q") (S "abc") [], []) :=
  (C6_manual_precedence ⟨true, true, fun _ => some ⟨3, S "ignored", none⟩, none⟩
    ⟨some (S "q"), some (S "zzz"), some (S "abc")⟩ (S "abc") rfl rfl rfl (by decide)).1

/-- ASCII case folding fixes every UUID character (digits, `a`-`f`, dash). -/
theorem toLower_uuidChar {c : Char} (h : isUuidChar c = true) : c.toLower = c := by
  have hn : ((48 ≤ c.toNat ∧ c.toNat ≤ 57) ∨ (97 ≤ c.toNat ∧ c.toNat ≤ 102)) ∨ c.toNat = 45 := by
    simpa [isUuidChar, Bool.or_eq_true, Bool.and_eq_true, decide_eq_true_eq] using h
  have hno : ¬ (c.toNat ≥ 65 ∧ c.toNat ≤ 90) := by omega
  simp [Char.toLower, hno]

/-- No UUID character lowercases to a dot. -/
theorem uuidChar_not_dot_lower {c : Char} (h : isUuidChar c = true) : c.toLower ≠ '.' := by
  rw [toLower_uuidChar h]
  intro he
  rw [he] at h
  exact absurd h (by decide)

/-- The characters of a canonical UUID string are all UUID characters. -/
theorem uuidStr_all {id : PyStr} (hid : isUuidStr id = true) :
    ∀ c ∈ id, isUuidChar c = true := by
  have h2 := ((Bool.and_eq_true _ _).mp hid).2
  exact List.all_eq_true.mp h2

/-- The lowered upload path of a UUID-named blob never ends in `.pdf`. -/
theorem uuid_path_not_pdf {id : PyStr} (hid : isUuidStr id = true) :
    pyEndsWith (pyLower (pyJoin UPLOAD_DIR id)) (S ".pdf") = false := by
  have hall := uuidStr_all hid
  rw [Bool.eq_false_iff]
  intro htrue
  have h3 : List.isSuffixOf (S ".pdf") (pyLower (pyJoin UPLOAD_DIR id)) = true := htrue
  have hsuf : S ".pdf" <:+ pyLower (pyJoin UPLOAD_DIR id) :=
    List.isSuffixOf_iff_suffix.mp h3
  obtain ⟨u, hu⟩ := hsuf
  have hdot : '.' ∈ pyLower (pyJoin UPLOAD_DIR id) := by
    rw [← hu]
    exact List.mem_append_right u (by decide)
  obtain ⟨c, hcmem, hclow⟩ := List.mem_map.mp hdot
  have hcmem2 : c ∈ UPLOAD_DIR ++ ('/' :: id) := hcmem
  rcases List.mem_append.mp hcmem2 with h1 | h2
  · exact absurd hclow ((by decide : ∀ x ∈ UPLOAD_DIR, Char.toLower x ≠ '.') c h1)
  · rcases List.mem_cons.mp h2 with h3 | h4
    · rw [h3] at hclow
      exact absurd hclow (by decide)
    · exact uuidChar_not_dot_lower (hall c h4) hclow

/-- The upload path of a UUID-named blob contains no dot, hence no
    filename extension. -/
theorem uuid_path_no_dot {id : PyStr} (hid : isUuidStr id = true) :
    '.' ∉ pyJoin UPLOAD_DIR id := by
  have hall := uuidStr_all hid
  intro hmem
  have hmem2 : '.' ∈ UPLOAD_DIR ++ ('/' :: id) := hmem
  rcases List.mem_append.mp hmem2 with h1 | h2
  · exact absurd h1 (by decide)
  · rcases List.mem_cons.mp h2 with h3 | h4
    · exact absurd h3 (by decide)
    · exact absurd (hall '.' h4) (by decide)

/-- C3: a file accepted by the upload endpoint is stored under the path made
    of the upload directory and the freshly generated UUID only; that path
    has no dot (so no filename extension), its lowered form does not end in
    `.pdf`, and a later chat extraction of it (under the size cap) takes the
    plain-text read branch, never the PDF branch. -/
theorem C3_upload_plain_branch (id : PyStr) (f : StoredFile)
    (hid : isUuidStr id = true) (hsz : f.size ≤ 10 * 1024 * 1024) :
    (upload_file id).1 = pyJoin UPLOAD_DIR id ∧
    '.' ∉ (upload_file id).1 ∧
    pyEndsWith (pyLower ((upload_file id).1)) (S ".pdf") = false ∧
    extractFile f ((upload_file id).1) = .ok (f.textRead, [], .PlainFile) := by
  have h1 : ¬ (10 * 1024 * 1024 < f.size) := by omega
  have h2 := uuid_path_not_pdf hid
  refine ⟨rfl, uuid_path_no_dot hid, h2, ?_⟩
  simp [extractFile, upload_file, h1, h2]

/-- Witness for C3 at a concrete canonical UUID. -/
theorem C3_upload_plain_branch_witness :
    extractFile ⟨7, S "hello", none⟩
        ((upload_file (S "123e4567-e89b-12d3-a456-426614174000")).1) =
      .ok (S "hello", [], .PlainFile) :=
  (C3_upload_plain_branch (S "123e4567-e89b-12d3-a456-426614174000") ⟨7, S "hello", none⟩
    (by decide) (by decide)).2.2.2

/-- A 4000-character manual text used to overflow the composed template. -/
def bigManual : PyStr := List.replicate 4000 'a'

/-- Stripping the long manual text is the identity. -/
theorem bigManual_strip : pyStrip bigManual = bigManual :=
  pyStrip_all_nonspace (fun c hc => by
    have h := List.eq_of_mem_replicate hc
    rw [h]
    rfl)

/-- The long manual text is non-empty. -/
theorem bigManual_ne_nil : bigManual ≠ [] := by
  intro h
  have h2 : bigManual.length = 4000 := List.length_replicate 4000 'a'
  rw [h] at h2
  simp at h2

/-- Environment for the C2 counterexample (service up, model ready,
    upstream answering 2xx). -/
def envLongManual : Env := ⟨true, true, fun _ => none, some ⟨true, some (S "ok")⟩⟩

/-- Chat request carrying the 4000-character manual text. -/
def reqLongManual : ChatRequest := ⟨none, none, some bigManual⟩

/-- The template composed for the long manual text. -/
def longTemplate : PyStr :=
  S "The user has uploaded a document. Document content:\n" ++ bigManual
    ++ S "\n\nPlease analyze this document."

/-- Length of the prompt actually posted to the generation endpoint for the
    long-manual-text request (0 if no call is made). -/
def sentPromptLength : Nat :=
  match (chat envLongManual reqLongManual).2 with
  | some p => p.prompt.length
  | none => 0

/-- The pipeline composes the overflowing template for the long request. -/
theorem chatCore_longManual :
    chatCore envLongManual reqLongManual = .ok (longTemplate, []) := by
  have hs : pyStrip bigManual ≠ [] := by
    rw [bigManual_strip]
    exact bigManual_ne_nil
  have hmt : manualTruthy (some bigManual) := ⟨bigManual_ne_nil, hs⟩
  simp [chatCore, envLongManual, reqLongManual, gatherContent, hmt, hs, composePrompt,
    longTemplate]

/-- C2 counterexample: the prompt actually sent to the generation endpoint
    for the long-manual-text request has length 4022 — the truncation marker
    is appended after the 4000-character cut, so the sent prompt exceeds the
    claimed 4000-character bound. -/
theorem C2_counterexample : 4000 < sentPromptLength := by
  have hsent : (chat envLongManual reqLongManual).2 =
      some ⟨MODEL_NAME, truncatePrompt longTemplate, [], false⟩ := by
    simp [chat, chatCore_longManual]
  have hlen : longTemplate.length = 4083 := by
    have h1 : (S "The user has uploaded a document. Document content:\n").length = 52 := by
      decide
    have h2 : (S "\n\nPlease analyze this document.").length = 31 := by decide
    have h3 : bigManual.length = 4000 := List.length_replicate 4000 'a'
    rw [longTemplate, List.length_append, List.length_append, h1, h2, h3]
  have hlen2 : (truncatePrompt longTemplate).length = 4022 := by
    rw [truncatePrompt, if_pos (by rw [hlen]; omega), List.length_append, List.length_take,
      hlen]
    decide
  unfold sentPromptLength
  rw [hsent]
  simp only []
  rw [hlen2]
  omega

/-- C2 amended: whenever the chat endpoint posts a payload, the sent prompt
    is at most 4000 characters plus the 22-character truncation marker
    (4022); when the composed template exceeds 4000 characters the sent
    prompt is exactly its first 4000 characters followed by the marker, and
    otherwise it is the template unchanged. -/
theorem C2_amended_truncation (env : Env) (req : ChatRequest) (t : PyStr)
    (imgs : List PyStr) (p : GenPayload)
    (hcore : chatCore env req = .ok (t, imgs))
    (hsent : (chat env req).2 = some p) :
    p.prompt.length ≤ 4000 + truncMarker.length ∧
    (4000 < t.length → p.prompt = t.take 4000 ++ truncMarker) ∧
    (t.length ≤ 4000 → p.prompt = t) := by
  have hch : (chat env req).2 = some ⟨MODEL_NAME, truncatePrompt t, imgs, false⟩ := by
    simp [chat, hcore]
  rw [hch] at hsent
  simp only [Option.some.injEq] at hsent
  subst hsent
  refine ⟨?_, ?_, ?_⟩
  · show (truncatePrompt t).length ≤ 4000 + truncMarker.length
    rw [truncatePrompt]
    by_cases h : 4000 < t.length
    · rw [if_pos h, List.length_append, List.length_take]
      omega
    · rw [if_neg h]
      have h22 : truncMarker.length = 22 := by decide
      omega
  · intro h
    show truncatePrompt t = t.take 4000 ++ truncMarker
    rw [truncatePrompt, if_pos h]
  · intro h
    show truncatePrompt t = t
    rw [truncatePrompt, if_neg (by omega)]

/-- The small template used by the C2 witness. -/
def smallTemplate : PyStr := composePrompt [] (S "doc") []

/-- The payload posted for the small-manual-text request. -/
def smallPayload : GenPayload := ⟨MODEL_NAME, truncatePrompt smallTemplate, [], false⟩

/-- Witness for C2 (amended) at a short manual text: the sent prompt is
    within the 4022 bound and equals the untruncated template. -/
theorem C2_amended_truncation_witness :
    smallPayload.prompt.length ≤ 4000 + truncMarker.length ∧
    smallPayload.prompt = smallTemplate := by
  have h := C2_amended_truncation envLongManual ⟨none, none, some (S "doc")⟩ smallTemplate []
    smallPayload (by decide) (by decide)
  exact ⟨h.1, h.2.2 (by decide)⟩
